import Mathlib

/-
  Shallow embedding of the FoodWasteConnector donation-lifecycle core.

  Sources embedded here:
  - supabase/migrations/20250629071101_hidden_term.sql : donations table,
    `update_donation_timestamps` trigger, row-level-security policies for
    SELECT / INSERT / UPDATE on `donations`.
  - supabase/migrations/20250629072723_steep_meadow.sql : row-level-security
    policies on `profiles` (auth.uid() = id for SELECT / INSERT / UPDATE).
  - src/pages/DonateSurplus `handleSubmit` : donation creation.
  - src/pages/IncomingRequests `acceptDonation` : the Accept operation.
  - src/pages/MyPickups `completeDonation` : the Complete operation.
  - src/components/NotificationSystem `handleDonationChange` and the
    notification list state updates.
  - src/contexts/AuthContext `updateProfile`.
  - src/lib/supabase `geocodeAddress`.

  Modelling conventions: uuids and timestamps are Nat; SQL `timestamptz`
  columns that may be NULL are `Option Nat`; latitude/longitude literals
  (exact 4-decimal values in the source) are integers scaled by 10000, so
  37.7749 is 377749; the text serialisation of a coordinate pair is kept as
  the pair itself (the TypeScript string rendering is injective on it).
-/

/-- Donation status, from the `donations_status_check` constraint
(`pending`, `accepted`, `completed`, `cancelled`). -/
inductive Status where
  | pending
  | accepted
  | completed
  | cancelled
deriving DecidableEq

/-- Profile role, from the `profiles_user_type_check` constraint
(`donor`, `shelter`, `volunteer`). -/
inductive Role where
  | donor
  | shelter
  | volunteer
deriving DecidableEq

/-- A row of the `profiles` table. -/
structure Profile where
  id : Nat
  email : String
  name : String
  user_type : Role
  phone : Option String
deriving DecidableEq

/-- A row of the `donations` table. -/
structure Donation where
  id : Nat
  donor_name : String
  food_type : String
  quantity : String
  pickup_location : String
  pickup_coordinates : Option (Int × Int)
  status : Status
  shelter_id : Option Nat
  donor_id : Nat
  volunteer_id : Option Nat
  created_at : Nat
  accepted_at : Option Nat
  completed_at : Option Nat
  notes : Option String
deriving DecidableEq

/-- Whether `needle` occurs at the start of `hay` (character lists). -/
def startsWithChars : List Char → List Char → Bool
  | _, [] => true
  | [], _ :: _ => false
  | c :: cs, n :: ns => c == n && startsWithChars cs ns

/-- Whether `needle` occurs as a contiguous run anywhere in `hay`;
mirrors JavaScript `String.prototype.includes`. -/
def containsChars : List Char → List Char → Bool
  | [], needle => startsWithChars [] needle
  | c :: cs, needle => startsWithChars (c :: cs) needle || containsChars cs needle

/-- `hay.toLowerCase().includes(needle.toLowerCase())` from the source. -/
def includesCI (hay needle : String) : Bool :=
  containsChars (hay.toList.map Char.toLower) (needle.toList.map Char.toLower)

/-- The `mockCoordinates` table of `geocodeAddress` in src/lib/supabase, in
object-entry order; coordinates scaled by 10000. -/
def mockCoordinates : List (String × Int × Int) :=
  [("New York", 407128, -740060),
   ("Los Angeles", 340522, -1182437),
   ("Chicago", 418781, -876298),
   ("Houston", 297604, -953698),
   ("Phoenix", 334484, -1120740)]

/-- The San Francisco default of `geocodeAddress` (37.7749, -122.4194). -/
def sanFrancisco : Int × Int := (377749, -1224194)

/-- `geocodeAddress` from src/lib/supabase: first city whose name occurs
case-insensitively in the address wins; otherwise the San Francisco
default. The source never returns null. -/
def geocodeAddress (address : String) : Option (Int × Int) :=
  match mockCoordinates.find? (fun c => includesCI address c.1) with
  | some c => some c.2
  | none => some sanFrancisco

/-- The form state of DonateSurplus `handleSubmit`. -/
structure DonationForm where
  donor_name : String
  food_type : String
  quantity : String
  pickup_location : String
  notes : String
deriving DecidableEq

/-- `finalCoordinates` in `handleSubmit`: the LocationPicker coordinates if
present, else `geocodeAddress` when the pickup location is non-empty
(JavaScript truthiness of the string), else null. -/
def finalCoordinates (pickerCoords : Option (Int × Int)) (loc : String) :
    Option (Int × Int) :=
  match pickerCoords with
  | some c => some c
  | none => if loc ≠ "" then geocodeAddress loc else none

/-- The row inserted by DonateSurplus `handleSubmit`: explicit
`status: 'pending'`, `donor_id: user.id`; `shelter_id`, `volunteer_id`,
`accepted_at`, `completed_at` are left to their NULL defaults. -/
def submitDonation (uid did : Nat) (form : DonationForm)
    (pickerCoords : Option (Int × Int)) (now : Nat) : Donation :=
  { id := did
    donor_name := form.donor_name
    food_type := form.food_type
    quantity := form.quantity
    pickup_location := form.pickup_location
    pickup_coordinates := finalCoordinates pickerCoords form.pickup_location
    status := .pending
    shelter_id := none
    donor_id := uid
    volunteer_id := none
    created_at := now
    accepted_at := none
    completed_at := none
    notes := if form.notes ≠ "" then some form.notes else none }

/-- WITH CHECK of the policy "Donors can create donations":
`uid() = donor_id`. -/
def insertAllowed (uid : Nat) (d : Donation) : Bool :=
  uid == d.donor_id

/-- Outcome of a supabase `update(...).eq('id', ...)` against a single row:
`updated` when the UPDATE policies admit the row and the new row passes a
WITH CHECK clause; `noop` when no UPDATE policy USING clause matches the
row (zero rows updated, no error returned); `rlsError` when the new row
violates every WITH CHECK clause (the client receives an error). -/
inductive UpdateOutcome where
  | updated (d : Donation)
  | noop
  | rlsError
deriving DecidableEq

/-- The `update_donation_timestamps` BEFORE UPDATE trigger. -/
def update_donation_timestamps (old new : Donation) (now : Nat) : Donation :=
  let n1 := if new.status == .accepted && old.status == .pending then
    { new with accepted_at := some now } else new
  if n1.status == .completed && old.status == .accepted then
    { n1 with completed_at := some now } else n1

/-- USING of "Shelters can update donations to accepted": the row is
`pending` and `uid()` belongs to a shelter profile. The acting profile
stands for the row of `profiles` with `id = uid()`. -/
def shelterUpdateUsing (actor : Profile) (d : Donation) : Bool :=
  d.status == .pending && actor.user_type == .shelter

/-- WITH CHECK of "Shelters can update donations to accepted":
`status = 'accepted' AND shelter_id = uid()`. -/
def shelterUpdateCheck (actor : Profile) (d : Donation) : Bool :=
  d.status == .accepted && d.shelter_id == some actor.id

/-- USING of "Volunteers can update donations to completed": the row is
`accepted` and `uid()` belongs to a volunteer profile. -/
def volunteerUpdateUsing (actor : Profile) (d : Donation) : Bool :=
  d.status == .accepted && actor.user_type == .volunteer

/-- WITH CHECK of "Volunteers can update donations to completed":
`status = 'completed'`. -/
def volunteerUpdateCheck (d : Donation) : Bool :=
  d.status == .completed

/-- One row-level update under the two permissive UPDATE policies of the
`donations` table: a row passes if some USING clause admits it (else the
update silently matches zero rows); the post-trigger new row must satisfy
some WITH CHECK clause, else the write errors. -/
def runDonationUpdate (actor : Profile) (set : Donation → Donation)
    (now : Nat) (d : Donation) : UpdateOutcome :=
  if shelterUpdateUsing actor d || volunteerUpdateUsing actor d then
    let n := update_donation_timestamps d (set d) now
    if shelterUpdateCheck actor n || volunteerUpdateCheck n then .updated n
    else .rlsError
  else .noop

/-- `acceptDonation` from IncomingRequests: update
`status: 'accepted', shelter_id: user.id` on the row with the given id. -/
def acceptDonation (actor : Profile) (now : Nat) (d : Donation) :
    UpdateOutcome :=
  runDonationUpdate actor
    (fun r => { r with status := .accepted, shelter_id := some actor.id })
    now d

/-- `completeDonation` from MyPickups: update
`status: 'completed', volunteer_id: user.id` on the row with the given
id. -/
def completeDonation (actor : Profile) (now : Nat) (d : Donation) :
    UpdateOutcome :=
  runDonationUpdate actor
    (fun r => { r with status := .completed, volunteer_id := some actor.id })
    now d

/-- The stored row after an update attempt: only `updated` changes it. -/
def applyOutcome (d : Donation) : UpdateOutcome → Donation
  | .updated n => n
  | .noop => d
  | .rlsError => d

/-- How the client code reports an update attempt: both `acceptDonation`
and `completeDonation` run `if (error) throw error` and then show a
success alert, so every outcome that is not an error — including a
zero-row `noop` — is reported as success. -/
def updateReportsSuccess : UpdateOutcome → Bool
  | .updated _ => true
  | .noop => true
  | .rlsError => false

/-- "Donors can read own donations": `uid() = donor_id`. -/
def donorsReadOwn (uid : Nat) (d : Donation) : Bool :=
  uid == d.donor_id

/-- "Shelters can read pending donations": `status = 'pending'` (no role
restriction in the first disjunct) OR the bound `shelter_id` is the acting
user and that user has a shelter profile. -/
def sheltersReadPending (actor : Profile) (d : Donation) : Bool :=
  d.status == .pending ||
    (d.shelter_id.isSome && d.shelter_id == some actor.id &&
      actor.user_type == .shelter)

/-- "Volunteers can read accepted donations": status in
`accepted/completed` and the acting user has a volunteer profile. -/
def volunteersReadAccepted (actor : Profile) (d : Donation) : Bool :=
  (d.status == .accepted || d.status == .completed) &&
    actor.user_type == .volunteer

/-- A SELECT on `donations` is allowed when any of the three permissive
SELECT policies admits the row. -/
def canRead (actor : Profile) (d : Donation) : Bool :=
  donorsReadOwn actor.id d || sheltersReadPending actor d ||
    volunteersReadAccepted actor d

/-- Event kinds delivered by the realtime channel in NotificationSystem. -/
inductive EventType where
  | insert
  | update
deriving DecidableEq

/-- The payload handled by `handleDonationChange`: the event kind, the full
new record, and the status carried by the old record of the payload (absent
for inserts or when the old row is not replicated). -/
structure ChangePayload where
  eventType : EventType
  newRecord : Donation
  oldStatus : Option Status
deriving DecidableEq

/-- An entry of the in-app notification list in NotificationSystem. -/
structure AppNotification where
  id : String
  ntype : String
  title : String
  message : String
  timestamp : Nat
  read : Bool
deriving DecidableEq

/-- `handleDonationChange` from NotificationSystem: maps a change payload
and the signed-in recipient (whose auth user id equals the profile id) to
zero or one rendered notification. -/
def handleDonationChange (recipient : Profile) (now : Nat)
    (p : ChangePayload) : Option AppNotification :=
  if p.eventType == .insert && recipient.user_type == .shelter then
    some { id := "donation-" ++ toString p.newRecord.id
           ntype := "info"
           title := "New Donation Available"
           message := p.newRecord.donor_name ++ " has donated " ++
             p.newRecord.quantity ++ " of " ++ p.newRecord.food_type
           timestamp := now
           read := false }
  else if p.eventType == .update && p.oldStatus != some p.newRecord.status then
    if p.newRecord.status == .accepted && p.newRecord.donor_id == recipient.id then
      some { id := "accepted-" ++ toString p.newRecord.id
             ntype := "success"
             title := "Donation Accepted!"
             message := "Your donation of " ++ p.newRecord.quantity ++ " " ++
               p.newRecord.food_type ++ " has been accepted by a shelter."
             timestamp := now
             read := false }
    else if p.newRecord.status == .completed && p.newRecord.donor_id == recipient.id then
      some { id := "completed-" ++ toString p.newRecord.id
             ntype := "success"
             title := "Donation Completed!"
             message := "Your donation of " ++ p.newRecord.quantity ++ " " ++
               p.newRecord.food_type ++ " has been successfully delivered."
             timestamp := now
             read := false }
    else if p.newRecord.status == .accepted && recipient.user_type == .volunteer then
      some { id := "pickup-" ++ toString p.newRecord.id
             ntype := "info"
             title := "New Pickup Available"
             message := "Pickup needed: " ++ p.newRecord.quantity ++ " of " ++
               p.newRecord.food_type ++ " from " ++ p.newRecord.donor_name
             timestamp := now
             read := false }
    else none
  else none

/-- `setNotifications(prev => [notification, ...prev.slice(0, 9)])`:
prepend the new notification and keep at most the first nine previous
ones. -/
def enqueueNotification (n : AppNotification)
    (prev : List AppNotification) : List AppNotification :=
  n :: prev.take 9

/-- `markAsRead` from NotificationSystem. -/
def markAsRead (i : String) (l : List AppNotification) :
    List AppNotification :=
  l.map (fun x => if x.id == i then { x with read := true } else x)

/-- `clearNotification` from NotificationSystem. -/
def clearNotification (i : String) (l : List AppNotification) :
    List AppNotification :=
  l.filter (fun x => !(x.id == i))

/-- The operations that mutate the notification list state. -/
inductive NotifOp where
  | deliver (n : AppNotification)
  | markRead (i : String)
  | clear (i : String)
  | clearAll
deriving DecidableEq

/-- One state update of the notification list. -/
def applyNotifOp (l : List AppNotification) : NotifOp → List AppNotification
  | .deliver n => enqueueNotification n l
  | .markRead i => markAsRead i l
  | .clear i => clearNotification i l
  | .clearAll => []

/-- Run a sequence of notification-list operations from the initial empty
`useState` list. -/
def runNotifOps (ops : List NotifOp) : List AppNotification :=
  ops.foldl applyNotifOp []

/-- `Partial<UserProfile>` as passed to `updateProfile` in AuthContext:
each field optionally overridden. -/
structure ProfileUpdate where
  id : Option Nat
  name : Option String
  user_type : Option Role
  email : Option String
  phone : Option (Option String)
deriving DecidableEq

/-- Apply a partial update to a profile row (the column list of the
supabase `update(updates)` call). -/
def applyProfileUpdate (up : ProfileUpdate) (p : Profile) : Profile :=
  { id := up.id.getD p.id
    name := up.name.getD p.name
    user_type := up.user_type.getD p.user_type
    email := up.email.getD p.email
    phone := up.phone.getD p.phone }

/-- "Users can update own profile" (steep_meadow migration): USING and
WITH CHECK are both `auth.uid() = id`. -/
def profileUpdatePolicy (uid : Nat) (p : Profile) : Bool :=
  uid == p.id

/-- `updateProfile` from AuthContext applied to the caller's row: the row
is updated when the USING clause admits the old row and the WITH CHECK
clause admits the new row; otherwise it is left unchanged. -/
def updateProfile (uid : Nat) (up : ProfileUpdate) (p : Profile) : Profile :=
  if profileUpdatePolicy uid p &&
      profileUpdatePolicy uid (applyProfileUpdate up p) then
    applyProfileUpdate up p
  else p

/-- Position of a status along the lifecycle
`pending → accepted → completed`; `cancelled` is a reserved terminal value
reachable by no operation. -/
def statusRank : Status → Nat
  | .pending => 0
  | .accepted => 1
  | .completed => 2
  | .cancelled => 3

/-- One applied transition on a stored donation row. `accept` is issued
from IncomingRequests, a route ProtectedRoute limits to shelter profiles;
`complete` is issued from MyPickups, limited to volunteer profiles. The
stored row is whatever the conditional update leaves behind. -/
inductive DStep : Donation → Donation → Prop
  | accept (a : Profile) (t : Nat) (d : Donation)
      (h : a.user_type = .shelter) :
      DStep d (applyOutcome d (acceptDonation a t d))
  | complete (a : Profile) (t : Nat) (d : Donation)
      (h : a.user_type = .volunteer) :
      DStep d (applyOutcome d (completeDonation a t d))

/-- The timestamp invariant of the claim: `accepted_at` is non-null iff
the status is accepted or completed, and `completed_at` is non-null iff
the status is completed. -/
def timestampInv (d : Donation) : Prop :=
  (d.accepted_at ≠ none ↔ (d.status = .accepted ∨ d.status = .completed)) ∧
    (d.completed_at ≠ none ↔ d.status = .completed)

/-- Modelled from the spec wording of the read rule: the claim under
verification states that a read is allowed iff the actor is the donor, or
the status is pending AND the actor has the shelter role, or the actor is
the bound shelter, or the actor is a volunteer and the status is accepted
or completed. -/
def specReadClaim (actor : Profile) (d : Donation) : Prop :=
  actor.id = d.donor_id ∨
    (d.status = .pending ∧ actor.user_type = .shelter) ∨
    (actor.user_type = .shelter ∧ d.shelter_id = some actor.id) ∨
    (actor.user_type = .volunteer ∧
      (d.status = .accepted ∨ d.status = .completed))

/-- The read rule the policies actually implement: as `specReadClaim`, but
the pending disjunct carries no role restriction — any authenticated actor
may read a pending donation. -/
def specReadAmended (actor : Profile) (d : Donation) : Prop :=
  actor.id = d.donor_id ∨
    d.status = .pending ∨
    (actor.user_type = .shelter ∧ d.shelter_id = some actor.id) ∨
    (actor.user_type = .volunteer ∧
      (d.status = .accepted ∨ d.status = .completed))

/-- The four notification cases of the claim: a created event for a
shelter-role recipient; an update changing the status to accepted, for the
donor; an update changing the status to accepted, for a volunteer-role
recipient; an update changing the status to completed, for the donor. -/
def notifSpec (recipient : Profile) (p : ChangePayload) : Prop :=
  (p.eventType = .insert ∧ recipient.user_type = .shelter) ∨
    (p.eventType = .update ∧ p.oldStatus ≠ some p.newRecord.status ∧
      p.newRecord.status = .accepted ∧ p.newRecord.donor_id = recipient.id) ∨
    (p.eventType = .update ∧ p.oldStatus ≠ some p.newRecord.status ∧
      p.newRecord.status = .accepted ∧ recipient.user_type = .volunteer) ∨
    (p.eventType = .update ∧ p.oldStatus ≠ some p.newRecord.status ∧
      p.newRecord.status = .completed ∧ p.newRecord.donor_id = recipient.id)

/-- Sample form input used by concrete scenarios. -/
def sampleForm : DonationForm :=
  { donor_name := "Dana"
    food_type := "Bakery Items"
    quantity := "10 meals"
    pickup_location := "12 Main St, Chicago"
    notes := "" }

/-- Donor profile used by concrete scenarios. -/
def donorDana : Profile :=
  { id := 1, email := "dana@example.com", name := "Dana"
    user_type := .donor, phone := none }

/-- First shelter profile used by concrete scenarios. -/
def shelterOne : Profile :=
  { id := 2, email := "s1@example.com", name := "Shelter One"
    user_type := .shelter, phone := none }

/-- Second shelter profile used by concrete scenarios. -/
def shelterTwo : Profile :=
  { id := 3, email := "s2@example.com", name := "Shelter Two"
    user_type := .shelter, phone := none }

/-- Volunteer profile used by concrete scenarios. -/
def volunteerVic : Profile :=
  { id := 4, email := "vic@example.com", name := "Vic"
    user_type := .volunteer, phone := none }

/-- A freshly created donation of donor 1. -/
def pendingDonation : Donation :=
  submitDonation 1 100 sampleForm none 0

/-- The stored row after shelter 2 wins the accept race at time 5. -/
def acceptedByOne : Donation :=
  applyOutcome pendingDonation (acceptDonation shelterOne 5 pendingDonation)

/-- Accept by a shelter on a pending row: the conditional write applies,
sets the shelter binding and the accepted timestamp. -/
theorem acceptDonation_pending (a : Profile) (t : Nat) (d : Donation)
    (ha : a.user_type = .shelter) (hd : d.status = .pending) :
    acceptDonation a t d = .updated
      { d with status := .accepted, shelter_id := some a.id,
               accepted_at := some t } := by
  simp [acceptDonation, runDonationUpdate, shelterUpdateUsing,
    volunteerUpdateUsing, shelterUpdateCheck, volunteerUpdateCheck,
    update_donation_timestamps, ha, hd]

/-- Accept by a shelter on a non-pending row: no UPDATE policy admits the
row, the write silently matches zero rows. -/
theorem acceptDonation_nonpending (a : Profile) (t : Nat) (d : Donation)
    (ha : a.user_type = .shelter) (hd : d.status ≠ .pending) :
    acceptDonation a t d = .noop := by
  simp [acceptDonation, runDonationUpdate, shelterUpdateUsing,
    volunteerUpdateUsing, ha, hd]

/-- Complete by a volunteer on an accepted row: the conditional write
applies, records the volunteer and the completed timestamp. -/
theorem completeDonation_accepted (a : Profile) (t : Nat) (d : Donation)
    (ha : a.user_type = .volunteer) (hd : d.status = .accepted) :
    completeDonation a t d = .updated
      { d with status := .completed, volunteer_id := some a.id,
               completed_at := some t } := by
  simp [completeDonation, runDonationUpdate, shelterUpdateUsing,
    volunteerUpdateUsing, shelterUpdateCheck, volunteerUpdateCheck,
    update_donation_timestamps, ha, hd]

/-- Complete by a volunteer on a row that is not accepted: no UPDATE
policy admits the row, the write silently matches zero rows. -/
theorem completeDonation_nonaccepted (a : Profile) (t : Nat) (d : Donation)
    (ha : a.user_type = .volunteer) (hd : d.status ≠ .accepted) :
    completeDonation a t d = .noop := by
  simp [completeDonation, runDonationUpdate, shelterUpdateUsing,
    volunteerUpdateUsing, ha, hd]

/-- C1 (amended): for a pending donation, the first Accept to reach the
store succeeds — the winning shelter ends with status accepted and
`shelter_id` bound to itself — and every Accept against a no-longer-pending
row matches zero rows: it is a silent no-op that leaves the record
unchanged and surfaces no error (the client even reports success), rather
than a ConflictError. -/
theorem accept_single_winner (s1 s2 : Profile) (t1 t2 : Nat) (d : Donation)
    (h1 : s1.user_type = .shelter) (h2 : s2.user_type = .shelter)
    (hd : d.status = .pending) :
    (∃ d1, acceptDonation s1 t1 d = .updated d1 ∧
      d1.status = .accepted ∧ d1.shelter_id = some s1.id ∧
      acceptDonation s2 t2 d1 = .noop ∧
      updateReportsSuccess (acceptDonation s2 t2 d1) = true) ∧
    (∀ (s : Profile) (t : Nat) (e : Donation), s.user_type = .shelter →
      e.status ≠ .pending →
      acceptDonation s t e = .noop ∧
      applyOutcome e (acceptDonation s t e) = e) := by
  constructor
  · refine ⟨_, acceptDonation_pending s1 t1 d h1 hd, rfl, rfl, ?_, ?_⟩
    · exact acceptDonation_nonpending s2 t2 _ h2 (by simp)
    · rw [acceptDonation_nonpending s2 t2 _ h2 (by simp)]
      rfl
  · intro s t e hs he
    rw [acceptDonation_nonpending s t e hs he]
    exact ⟨rfl, rfl⟩

/-- C1 witness: concrete two-shelter race on a fresh donation. -/
theorem accept_single_winner_witness :
    (∃ d1, acceptDonation shelterOne 5 pendingDonation = .updated d1 ∧
      d1.status = .accepted ∧ d1.shelter_id = some shelterOne.id ∧
      acceptDonation shelterTwo 6 d1 = .noop ∧
      updateReportsSuccess (acceptDonation shelterTwo 6 d1) = true) ∧
    (∀ (s : Profile) (t : Nat) (e : Donation), s.user_type = .shelter →
      e.status ≠ .pending →
      acceptDonation s t e = .noop ∧
      applyOutcome e (acceptDonation s t e) = e) :=
  accept_single_winner shelterOne shelterTwo 5 6 pendingDonation rfl rfl rfl

/-- C1 counterexample: after shelter 2 has accepted, shelter 3 invoking
Accept on the same donation does not fail with any error — the update
matches zero rows, the record is unchanged, and the client code reports
success — contradicting the claim that every losing Accept fails with
ConflictError rather than silently doing nothing. -/
theorem accept_loser_silent_noop_counterexample :
    acceptedByOne.status = .accepted ∧
    acceptedByOne.shelter_id = some shelterOne.id ∧
    acceptDonation shelterTwo 6 acceptedByOne = .noop ∧
    applyOutcome acceptedByOne (acceptDonation shelterTwo 6 acceptedByOne) =
      acceptedByOne ∧
    updateReportsSuccess (acceptDonation shelterTwo 6 acceptedByOne) = true := by
  decide

/-- C2 (amended): a Complete call by a volunteer on a donation still in
pending leaves the record unchanged — the conditional update matches zero
rows — but no InvalidTransitionError (nor any error) is raised: the call
returns without error and the client reports success. -/
theorem complete_pending_silent_noop (v : Profile) (t : Nat) (d : Donation)
    (hv : v.user_type = .volunteer) (hd : d.status = .pending) :
    completeDonation v t d = .noop ∧
    applyOutcome d (completeDonation v t d) = d ∧
    updateReportsSuccess (completeDonation v t d) = true := by
  have h := completeDonation_nonaccepted v t d hv (by rw [hd]; simp)
  rw [h]
  exact ⟨rfl, rfl, rfl⟩

/-- C2 witness: volunteer 4 completing the fresh pending donation. -/
theorem complete_pending_silent_noop_witness :
    completeDonation volunteerVic 7 pendingDonation = .noop ∧
    applyOutcome pendingDonation (completeDonation volunteerVic 7 pendingDonation) =
      pendingDonation ∧
    updateReportsSuccess (completeDonation volunteerVic 7 pendingDonation) = true :=
  complete_pending_silent_noop volunteerVic 7 pendingDonation rfl rfl

/-- C2 counterexample: on a concrete pending donation, Complete by a
volunteer produces no error of any kind and the client reports success,
contradicting the claim that it fails with InvalidTransitionError and does
not report success. -/
theorem complete_pending_counterexample :
    pendingDonation.status = .pending ∧
    completeDonation volunteerVic 7 pendingDonation = .noop ∧
    applyOutcome pendingDonation (completeDonation volunteerVic 7 pendingDonation) =
      pendingDonation ∧
    updateReportsSuccess (completeDonation volunteerVic 7 pendingDonation) = true := by
  decide

/-- C3: across the applied operations (Create starts at pending; Accept
and Complete as issued from their role-guarded pages), a stored record
only ever moves forward along pending → accepted → completed: the status
rank never decreases, and a pending record is never moved directly to
completed. -/
theorem donation_status_forward (d d' : Donation) (h : DStep d d') :
    statusRank d.status ≤ statusRank d'.status ∧
    (d.status = .pending → d'.status ≠ .completed) := by
  cases h with
  | accept a t d ha =>
    by_cases hd : d.status = .pending
    · rw [acceptDonation_pending a t d ha hd]
      simp [applyOutcome, hd, statusRank]
    · rw [acceptDonation_nonpending a t d ha hd]
      refine ⟨le_refl _, ?_⟩
      intro hp
      exact absurd hp hd
  | complete a t d ha =>
    by_cases hd : d.status = .accepted
    · rw [completeDonation_accepted a t d ha hd]
      simp [applyOutcome, hd, statusRank]
    · rw [completeDonation_nonaccepted a t d ha hd]
      refine ⟨le_refl _, ?_⟩
      intro hp
      show d.status ≠ Status.completed
      rw [hp]
      simp

/-- C3 witness: the concrete accept step from pending to accepted. -/
theorem donation_status_forward_witness :
    statusRank pendingDonation.status ≤ statusRank acceptedByOne.status ∧
    (pendingDonation.status = .pending → acceptedByOne.status ≠ .completed) :=
  donation_status_forward pendingDonation acceptedByOne
    (DStep.accept shelterOne 5 pendingDonation rfl)

/-- C4: creation establishes the timestamp invariant — `accepted_at`
non-null iff status is accepted or completed, `completed_at` non-null iff
status is completed — and every applied Accept or Complete step preserves
it. -/
theorem donation_timestamps_iff_status :
    (∀ (uid did : Nat) (form : DonationForm) (pc : Option (Int × Int))
      (now : Nat), timestampInv (submitDonation uid did form pc now)) ∧
    (∀ d d' : Donation, timestampInv d → DStep d d' → timestampInv d') := by
  constructor
  · intro uid did form pc now
    simp [timestampInv, submitDonation]
  · rintro d d' ⟨h1, h2⟩ hstep
    cases hstep with
    | accept a t d ha =>
      by_cases hd : d.status = .pending
      · rw [acceptDonation_pending a t d ha hd]
        rw [hd] at h2
        simp at h2
        simp [applyOutcome, timestampInv, h2]
      · rw [acceptDonation_nonpending a t d ha hd]
        exact ⟨h1, h2⟩
    | complete a t d ha =>
      by_cases hd : d.status = .accepted
      · rw [completeDonation_accepted a t d ha hd]
        rw [hd] at h1
        simp at h1
        simp [applyOutcome, timestampInv, h1]
      · rw [completeDonation_nonaccepted a t d ha hd]
        exact ⟨h1, h2⟩

/-- C4 witness: the invariant holds after the concrete accept step. -/
theorem donation_timestamps_iff_status_witness :
    timestampInv acceptedByOne :=
  donation_timestamps_iff_status.2 pendingDonation acceptedByOne
    (by simp [pendingDonation, timestampInv, submitDonation])
    (DStep.accept shelterOne 5 pendingDonation rfl)

/-- C5 (amended): a read on a donation row is allowed exactly when the
actor is the donor, or the status is pending (any authenticated actor, no
role restriction), or the actor is a shelter bound as the record's
shelter, or the actor is a volunteer and the status is accepted or
completed. -/
theorem read_allowed_iff (actor : Profile) (d : Donation) :
    canRead actor d = true ↔ specReadAmended actor d := by
  have h1 : (d.shelter_id.isSome && (d.shelter_id == some actor.id)) =
      (d.shelter_id == some actor.id) := by
    cases d.shelter_id <;> simp
  simp only [canRead, donorsReadOwn, sheltersReadPending,
    volunteersReadAccepted, h1, specReadAmended, Bool.or_eq_true,
    Bool.and_eq_true, beq_iff_eq]
  tauto

/-- C5 counterexample: a volunteer who is not the donor may read a pending
donation (the first disjunct of "Shelters can read pending donations"
carries no role restriction), while the claimed rule denies every such
pair. -/
theorem volunteer_reads_pending_counterexample :
    canRead volunteerVic pendingDonation = true ∧
    ¬ specReadClaim volunteerVic pendingDonation := by
  unfold specReadClaim
  exact ⟨by decide, by decide⟩

/-- C6: a donor-created donation passes the INSERT policy, is immediately
readable by its donor, and starts with status pending, no bound shelter,
and null accepted/completed timestamps. -/
theorem create_read_roundtrip (u : Profile) (did : Nat) (form : DonationForm)
    (pc : Option (Int × Int)) (now : Nat)
    (hf : form.food_type ≠ "") (hq : form.quantity ≠ "")
    (hl : form.pickup_location ≠ "") :
    insertAllowed u.id (submitDonation u.id did form pc now) = true ∧
    canRead u (submitDonation u.id did form pc now) = true ∧
    (submitDonation u.id did form pc now).status = .pending ∧
    (submitDonation u.id did form pc now).shelter_id = none ∧
    (submitDonation u.id did form pc now).accepted_at = none ∧
    (submitDonation u.id did form pc now).completed_at = none := by
  refine ⟨?_, ?_, rfl, rfl, rfl, rfl⟩
  · simp [insertAllowed, submitDonation]
  · simp [canRead, donorsReadOwn, submitDonation]

/-- C6 witness: the concrete donor creating the sample donation. -/
theorem create_read_roundtrip_witness :
    insertAllowed donorDana.id (submitDonation donorDana.id 100 sampleForm none 0) = true ∧
    canRead donorDana (submitDonation donorDana.id 100 sampleForm none 0) = true ∧
    (submitDonation donorDana.id 100 sampleForm none 0).status = .pending ∧
    (submitDonation donorDana.id 100 sampleForm none 0).shelter_id = none ∧
    (submitDonation donorDana.id 100 sampleForm none 0).accepted_at = none ∧
    (submitDonation donorDana.id 100 sampleForm none 0).completed_at = none :=
  create_read_roundtrip donorDana 100 sampleForm none 0
    (by decide) (by decide) (by decide)

/-- C7: `handleDonationChange` renders a notification exactly in the four
specified (event, recipient) cases — a created event for a shelter-role
recipient, a status change to accepted for the donor, a status change to
accepted for a volunteer-role recipient, and a status change to completed
for the donor — and in no other combination. -/
theorem notification_exactly_four_cases (recipient : Profile) (now : Nat)
    (p : ChangePayload) :
    (handleDonationChange recipient now p).isSome = true ↔
      notifSpec recipient p := by
  simp only [handleDonationChange]
  split_ifs with hc1 hc2 hc3 hc4 hc5 <;>
    simp_all [notifSpec, Bool.and_eq_true, beq_iff_eq, bne_iff_ne]

/-- The notification list never exceeds ten entries under any sequence of
state updates starting from the empty initial state. -/
theorem runNotifOps_length_le (ops : List NotifOp) (l : List AppNotification)
    (h : l.length ≤ 10) : (List.foldl applyNotifOp l ops).length ≤ 10 := by
  induction ops generalizing l with
  | nil => exact h
  | cons op rest ih =>
    apply ih
    cases op with
    | deliver n =>
      simp only [applyNotifOp, enqueueNotification, List.length_cons,
        List.length_take]
      omega
    | markRead i => simpa [applyNotifOp, markAsRead] using h
    | clear i =>
      calc (applyNotifOp l (.clear i)).length ≤ l.length :=
            List.length_filter_le _ _
        _ ≤ 10 := h
    | clearAll => simp [applyNotifOp]

/-- C8: the in-app list holds at most ten notifications in every reachable
state, and delivering to a full list of ten keeps the new notification
first, retains the previous nine, and drops the previous last (oldest)
entry. -/
theorem notification_list_capped :
    (∀ ops : List NotifOp, (runNotifOps ops).length ≤ 10) ∧
    (∀ (n : AppNotification) (prev : List AppNotification),
      prev.length = 10 →
      enqueueNotification n prev = n :: prev.dropLast ∧
      (enqueueNotification n prev).length = 10) := by
  constructor
  · intro ops
    exact runNotifOps_length_le ops [] (by simp)
  · intro n prev hlen
    constructor
    · simp only [enqueueNotification, List.dropLast_eq_take, hlen]
    · simp [enqueueNotification, hlen]

/-- Sample notification used by concrete scenarios. -/
def sampleNotif : AppNotification :=
  { id := "donation-100", ntype := "info", title := "New Donation Available"
    message := "Dana has donated 10 meals of Bakery Items"
    timestamp := 0, read := false }

/-- C8 witness: delivering an eleventh notification to a full list of
ten. -/
theorem notification_list_capped_witness :
    (runNotifOps [.deliver sampleNotif]).length ≤ 10 ∧
    enqueueNotification sampleNotif (List.replicate 10 sampleNotif) =
      sampleNotif :: (List.replicate 10 sampleNotif).dropLast ∧
    (enqueueNotification sampleNotif (List.replicate 10 sampleNotif)).length = 10 :=
  ⟨notification_list_capped.1 [.deliver sampleNotif],
    notification_list_capped.2 sampleNotif (List.replicate 10 sampleNotif)
      (by simp)⟩

/-- C9 (amended): the role tag is assigned at profile creation and an
`updateProfile` call whose updates do not include `user_type` leaves it
unchanged; but the update policy checks only row identity, so nothing
prevents a call that does include `user_type` from changing it. -/
theorem updateProfile_usertype_frame (uid : Nat) (up : ProfileUpdate)
    (p : Profile) (h : up.user_type = none) :
    (updateProfile uid up p).user_type = p.user_type := by
  unfold updateProfile
  split_ifs with hok
  · simp [applyProfileUpdate, h]
  · rfl

/-- C9 witness: a name-only update leaves the role unchanged. -/
theorem updateProfile_usertype_frame_witness :
    (updateProfile 1
      { id := none, name := some "Dana R", user_type := none,
        email := none, phone := none } donorDana).user_type =
      donorDana.user_type :=
  updateProfile_usertype_frame 1
    { id := none, name := some "Dana R", user_type := none,
      email := none, phone := none } donorDana rfl

/-- C9 counterexample: the profiles UPDATE policy checks only
`auth.uid() = id`, so `updateProfile` with an update that carries a new
`user_type` changes the role tag after creation, contradicting
immutability. -/
theorem updateProfile_usertype_mutable_counterexample :
    donorDana.user_type = .donor ∧
    (updateProfile 1
      { id := none, name := none, user_type := some .shelter,
        email := none, phone := none } donorDana).user_type = .shelter := by
  decide

/-- C10: `geocodeAddress` always returns a coordinate pair — for an
address containing a known city name (case-insensitively, first match in
table order) the fixed coordinates of that city, and the San Francisco
default for every other address — and consequently a donation created
with a non-empty pickup location stores non-null coordinates. -/
theorem geocode_total_city_or_default :
    (∀ addr : String, (geocodeAddress addr).isSome = true) ∧
    (∀ addr : String, includesCI addr "New York" = true →
      geocodeAddress addr = some (407128, -740060)) ∧
    (∀ addr : String, includesCI addr "New York" = false →
      includesCI addr "Los Angeles" = true →
      geocodeAddress addr = some (340522, -1182437)) ∧
    (∀ addr : String, includesCI addr "New York" = false →
      includesCI addr "Los Angeles" = false →
      includesCI addr "Chicago" = true →
      geocodeAddress addr = some (418781, -876298)) ∧
    (∀ addr : String, includesCI addr "New York" = false →
      includesCI addr "Los Angeles" = false →
      includesCI addr "Chicago" = false →
      includesCI addr "Houston" = true →
      geocodeAddress addr = some (297604, -953698)) ∧
    (∀ addr : String, includesCI addr "New York" = false →
      includesCI addr "Los Angeles" = false →
      includesCI addr "Chicago" = false →
      includesCI addr "Houston" = false →
      includesCI addr "Phoenix" = true →
      geocodeAddress addr = some (334484, -1120740)) ∧
    (∀ addr : String, includesCI addr "New York" = false →
      includesCI addr "Los Angeles" = false →
      includesCI addr "Chicago" = false →
      includesCI addr "Houston" = false →
      includesCI addr "Phoenix" = false →
      geocodeAddress addr = some sanFrancisco) ∧
    (∀ (uid did : Nat) (form : DonationForm) (pc : Option (Int × Int))
      (now : Nat), form.pickup_location ≠ "" →
      (submitDonation uid did form pc now).pickup_coordinates ≠ none) := by
  refine ⟨?_, ?_, ?_, ?_, ?_, ?_, ?_, ?_⟩
  · intro addr
    unfold geocodeAddress
    cases h : mockCoordinates.find? (fun c => includesCI addr c.1) <;> simp
  · intro addr h
    simp [geocodeAddress, mockCoordinates, List.find?, h]
  · intro addr h1 h2
    simp [geocodeAddress, mockCoordinates, List.find?, h1, h2]
  · intro addr h1 h2 h3
    simp [geocodeAddress, mockCoordinates, List.find?, h1, h2, h3]
  · intro addr h1 h2 h3 h4
    simp [geocodeAddress, mockCoordinates, List.find?, h1, h2, h3, h4]
  · intro addr h1 h2 h3 h4 h5
    simp [geocodeAddress, mockCoordinates, List.find?, h1, h2, h3, h4, h5]
  · intro addr h1 h2 h3 h4 h5
    simp [geocodeAddress, mockCoordinates, List.find?, h1, h2, h3, h4, h5]
  · intro uid did form pc now hloc
    simp only [submitDonation, finalCoordinates]
    cases pc with
    | some c => simp
    | none =>
      rw [if_pos hloc]
      unfold geocodeAddress
      cases h : mockCoordinates.find?
          (fun c => includesCI form.pickup_location c.1) <;> simp

/-- C10 witness: a Chicago address resolves to the Chicago coordinates, an
unknown address falls back to San Francisco, and a created donation with a
non-empty pickup location stores non-null coordinates. -/
theorem geocode_total_city_or_default_witness :
    geocodeAddress "12 Main St, Chicago" = some (418781, -876298) ∧
    geocodeAddress "somewhere else" = some sanFrancisco ∧
    (submitDonation 1 100 sampleForm none 0).pickup_coordinates ≠ none :=
  ⟨geocode_total_city_or_default.2.2.2.1 "12 Main St, Chicago"
      (by decide) (by decide) (by decide),
    geocode_total_city_or_default.2.2.2.2.2.2.1 "somewhere else"
      (by decide) (by decide) (by decide) (by decide) (by decide),
    geocode_total_city_or_default.2.2.2.2.2.2.2 1 100 sampleForm none 0
      (by decide)⟩
